import Mathlib

/-!
Verification of the Reptile meta-training harness (train_omniglot.py).

The script is Python 2 (print statements, xrange, iterator .next()), so the
embedding follows Python 2 semantics; in particular, division between two
ints is floor division. Machine ints are modelled as unbounded integers
(Python ints are arbitrary precision) and float arithmetic as exact rational
arithmetic. Tensors are modelled elementwise as functions into the rationals.
External library code (PyTorch) is embedded from its documented semantics;
repository files other than train_omniglot.py (models.py, omniglot.py) are
not available, so their operations are modelled from the design document, as
marked in the doc comments.
-/

/- ### Meta learning rate (train_omniglot.py line 178)

`meta_lr = args.meta_lr * (1. - meta_iteration/args.meta_iterations)`.
`meta_iteration` (a loop index from xrange) and `args.meta_iterations`
(declared with type=int) are both Python 2 ints, so the division is floor
division; `args.meta_lr` is a float. -/

/-- Embeds line 178 of train_omniglot.py. The quotient `i / total` is Python 2
integer floor division, exactly as executed. -/
def metaLr (baseLr : ℚ) (i total : ℕ) : ℚ :=
  baseLr * (1 - (i / total : ℕ))

/-- The learning-rate formula as the design document words it
(real-number division), for comparison with `metaLr`. -/
def metaLrRealDiv (baseLr : ℚ) (i total : ℕ) : ℚ :=
  baseLr * (1 - (i : ℚ) / (total : ℚ))

/- ### The --check-every flag (train_omniglot.py lines 60 and 233)

Line 60 declares the flag without `type=int`, so argparse binds any
explicitly supplied command-line token as a string, while the absent-flag
default keeps its int value 1000. Line 233 computes
`meta_iteration % args.check_every`. -/

/-- A Python value that is either an int or a str, the two possible runtime
types of `args.check_every`. -/
inductive ArgVal where
  | int (n : ℤ)
  | str (s : String)
deriving DecidableEq

/-- Embeds the argparse binding of `--check-every` (line 60): no `type=`
keyword, so an explicit command-line token stays a string; the default 1000
stays an int. -/
def parseCheckEvery : Option String → ArgVal
  | none => ArgVal.int 1000
  | some raw => ArgVal.str raw

/-- Python 2 `%` applied to an int left operand: defined for an int right
operand (with sign following the divisor, as Int.emod does for positive
divisors, and ZeroDivisionError on 0), and a TypeError for a str right
operand (int.__mod__ returns NotImplemented and str has no __rmod__). -/
def pyIntMod (n : ℤ) : ArgVal → Except String ℤ
  | ArgVal.int m =>
      if m = 0 then Except.error "ZeroDivisionError" else Except.ok (n % m)
  | ArgVal.str _ =>
      Except.error "TypeError: unsupported operand types for %: int and str"

/-- Embeds the checkpoint cadence test of line 233,
`meta_iteration % args.check_every == 0`. -/
def checkpointTest (i : ℤ) (ce : ArgVal) : Except String Bool :=
  match pyIntMod i ce with
  | Except.error e => Except.error e
  | Except.ok r => Except.ok (r == 0)

/- ### The --train-shots fallback (train_omniglot.py lines 63-64)

`if args.train_shots <= 0: args.train_shots = args.shots`. -/

/-- Embeds lines 63-64: the effective value of `args.train_shots` after the
startup fallback, given the parsed `--train-shots` and `--shots` ints. -/
def effectiveTrainShots (train_shots shots : ℤ) : ℤ :=
  if train_shots ≤ 0 then shots else train_shots

/- ### The Reptile interpolation step (train_omniglot.py lines 194-196)

`meta_net.point_grad_to(net); meta_optimizer.step()`. The meta optimizer is
plain SGD over the Meta-Model parameters (line 158) with the learning rate
set for the iteration by set_learning_rate (lines 149-151). A parameter
tensor is modelled elementwise as a function from an index type into the
rationals. -/

/-- Modelled from the spec: point_grad_to lives in models.py, which is not
part of the available source. Section 4.4 of the design document: the
gradient slot of every Meta-Model parameter element receives the
displacement of the Meta-Model value from the task-adapted value, so that
the gradient-descent step moves the meta parameters toward the task
parameters. -/
def pointGradTo {ι : Type} (meta task : ι → ℚ) : ι → ℚ :=
  fun p => meta p - task p

/-- Modelled from the spec: a vanilla SGD step of the torch library (no
momentum, no weight decay, as built on line 158), applied elementwise:
param := param - lr * grad. -/
def sgdStep {ι : Type} (lr : ℚ) (param grad : ι → ℚ) : ι → ℚ :=
  fun p => param p - lr * grad p

/-- Embeds lines 194-196: write the Reptile displacement into the gradient
slots, then take one SGD step at the current meta learning rate. -/
def interpolateStep {ι : Type} (lr : ℚ) (meta task : ι → ℚ) : ι → ℚ :=
  sgdStep lr meta (pointGradTo meta task)

/- ### Task sampling (omniglot.py, called at lines 187 and 202)

get_random_task and get_random_task_split live in omniglot.py, which is not
part of the available source. Modelled from section 4.1 of the design
document: select n distinct classes, draw the requested number of images per
class without replacement, and signal an error if a class has fewer images
than requested. The random choice of classes and of image order is
abstracted into the argument: `selected` is the list of the chosen classes
image lists, each already arbitrarily permuted by the random stream, so a
draw without replacement is a prefix. -/

/-- Modelled from the spec: drawing k images from one selected class without
replacement; signals an insufficient-data error when the class has fewer
than k images, never a truncated draw. -/
def drawShots {α : Type} (k : ℕ) (images : List α) : Except String (List α) :=
  if k ≤ images.length then Except.ok (images.take k)
  else Except.error "insufficient data"

/-- Modelled from the spec: draw k images from every selected class in turn,
propagating the first insufficient-data error. -/
def mapShots {α : Type} (k : ℕ) : List (List α) → Except String (List (List α))
  | [] => Except.ok []
  | c :: cs =>
    match drawShots k c with
    | Except.error e => Except.error e
    | Except.ok t =>
      match mapShots k cs with
      | Except.error e => Except.error e
      | Except.ok ts => Except.ok (t :: ts)

/-- Modelled from the spec: get_random_task, drawing k images for each
selected class (call site line 187 with args.train_shots). -/
def getRandomTask {α : Type} (k : ℕ) (selected : List (List α)) :
    Except String (List (List α)) :=
  mapShots k selected

/-- Modelled from the spec: get_random_task_split, drawing trainK + testK
images per selected class and partitioning them into disjoint train and test
shards (call site line 202 with train_K = args.shots, test_K = 5). -/
def getRandomTaskSplit {α : Type} (trainK testK : ℕ)
    (selected : List (List α)) :
    Except String (List (List α × List α)) :=
  match mapShots (trainK + testK) selected with
  | Except.error e => Except.error e
  | Except.ok cs => Except.ok (cs.map (fun c => (c.take trainK, c.drop trainK)))

/- ### The infinite batch iterator (train_omniglot.py lines 17-20)

`make_infinite` re-enters `for x in dataloader` forever. Each re-entry of the
for loop iterates the DataLoader afresh, and a DataLoader built with
shuffle=True (lines 188, 203, 204) yields the same batches in a fresh random
order on every pass. A loader is modelled by the batch list of each pass
together with the fact that every pass is a permutation of the first. -/

/-- A shuffled DataLoader: `data` is the batch sequence of pass 0, `pass` p
is the batch sequence produced by the p-th re-entry of the for loop, and
every pass is a permutation (reshuffle) of the same finite data. -/
structure ShuffledLoader (B : Type) where
  data : List B
  pass : ℕ → List B
  perm : ∀ p, (pass p).Perm data

/-- Embeds make_infinite (lines 17-20): the n-th yield of
`while True: for x in dataloader: yield x`. Every pass has the same length L
as the data, so yield n comes from position n mod L of pass n / L. -/
def makeInfinite {B : Type} (dl : ShuffledLoader B) (n : ℕ) : Option B :=
  (dl.pass (n / dl.data.length))[n % dl.data.length]?

/- ### Theorems -/

/-- Claim C2: the spec says the meta learning rate at iteration i equals
base * (1 - i / total) with real-number division, annealing linearly.
The code performs Python 2 integer floor division, so at the failing input
meta_iteration = 50, meta_iterations = 100, base meta-lr = 1.0 the code
yields 1.0 while the claimed formula yields 1/2; the rate stays at its base
value for every iteration of the run. -/
theorem metaLr_floor_division_constant :
    metaLr 1 50 100 = 1 ∧ metaLrRealDiv 1 50 100 = 1 / 2 ∧
      metaLr 1 50 100 ≠ metaLrRealDiv 1 50 100 ∧
      (∀ i, i < 100 → metaLr 1 i 100 = 1) := by
  refine ⟨by norm_num [metaLr], by norm_num [metaLrRealDiv], by norm_num [metaLr, metaLrRealDiv], ?_⟩
  intro i hi
  have h0 : i / 100 = 0 := Nat.div_eq_of_lt hi
  simp [metaLr, h0]

/-- Claim C4: with a nonnegative base rate and a positive total, the meta
learning rate of line 178 is monotonically non-increasing in the iteration
number, equals exactly 0 when the iteration number equals the configured
total, and in particular with meta-iterations 100 and meta-lr 1.0 it is 1.0
at iteration 0 and 0.0 at iteration 100. -/
theorem metaLr_monotone_zero_at_total (base : ℚ) (total : ℕ)
    (hb : 0 ≤ base) (ht : 0 < total) :
    (∀ i j, i ≤ j → metaLr base j total ≤ metaLr base i total) ∧
      metaLr base total total = 0 ∧
      metaLr 1 0 100 = 1 ∧ metaLr 1 100 100 = 0 := by
  refine ⟨?_, ?_, by norm_num [metaLr], by norm_num [metaLr]⟩
  · intro i j hij
    have hdiv : i / total ≤ j / total := Nat.div_le_div_right hij
    have hcast : ((i / total : ℕ) : ℚ) ≤ ((j / total : ℕ) : ℚ) := by
      exact_mod_cast hdiv
    unfold metaLr
    have hsub : (1 : ℚ) - (j / total : ℕ) ≤ 1 - (i / total : ℕ) := by
      linarith
    exact mul_le_mul_of_nonneg_left hsub hb
  · have hd : total / total = 1 := Nat.div_self ht
    simp [metaLr, hd]

/-- Claim C4 witness: instantiation at base rate 1 and total 100. -/
theorem metaLr_monotone_zero_at_total_witness :
    (0 : ℚ) ≤ 1 ∧ (0 : ℕ) < 100 ∧
      ((∀ i j, i ≤ j → metaLr 1 j 100 ≤ metaLr 1 i 100) ∧
        metaLr 1 100 100 = 0 ∧
        metaLr 1 0 100 = 1 ∧ metaLr 1 100 100 = 0) :=
  ⟨by norm_num, by norm_num, metaLr_monotone_zero_at_total 1 100 (by norm_num) (by norm_num)⟩

/-- Claim C9: the --check-every flag is declared without an integer type, so
an explicitly supplied value is bound as a string and the cadence test
`meta_iteration % args.check_every` raises a TypeError at every
meta-iteration, in particular the first; with the flag absent the int
default 1000 is used and the test evaluates normally. -/
theorem check_every_string_type_mismatch (raw : String) (i : ℤ) :
    checkpointTest i (parseCheckEvery (some raw)) =
        Except.error "TypeError: unsupported operand types for %: int and str" ∧
      checkpointTest i (parseCheckEvery none) = Except.ok (i % 1000 == 0) := by
  constructor
  · rfl
  · simp [checkpointTest, parseCheckEvery, pyIntMod]

/-- Claim C10: a non-positive --train-shots is silently replaced by --shots
at startup, so the shot count used by every training-task sample is
args.shots in that case and is positive whenever args.shots is; no error is
raised. -/
theorem train_shots_fallback_to_shots (ts s : ℤ) (h : ts ≤ 0) :
    effectiveTrainShots ts s = s ∧
      (0 < s → 0 < effectiveTrainShots ts s) := by
  have he : effectiveTrainShots ts s = s := by
    simp [effectiveTrainShots, h]
  exact ⟨he, fun hs => by rw [he]; exact hs⟩

/-- Claim C10 witness: instantiation at train-shots -3 and shots 5. -/
theorem train_shots_fallback_to_shots_witness :
    (-3 : ℤ) ≤ 0 ∧
      (effectiveTrainShots (-3) 5 = 5 ∧
        (0 < (5 : ℤ) → 0 < effectiveTrainShots (-3) 5)) :=
  ⟨by decide, train_shots_fallback_to_shots (-3) 5 (by decide)⟩

/-- Claim C1: after the interpolate step (point_grad_to followed by the SGD
meta-optimizer step), every element of every Meta-Model parameter tensor
equals (1 - meta_lr) * old + meta_lr * adapted, where old is the value
before the step, adapted is the task-local value after inner-loop
adaptation, and meta_lr is the rate set for the iteration. -/
theorem interpolate_eq_convex_combination {ι : Type} (lr : ℚ)
    (meta task : ι → ℚ) :
    ∀ p, interpolateStep lr meta task p = (1 - lr) * meta p + lr * task p := by
  intro p
  unfold interpolateStep sgdStep pointGradTo
  ring

/-- Drawing from a class list that contains a class with fewer than k images
propagates the insufficient-data error. -/
theorem mapShots_insufficient {α : Type} (k : ℕ) :
    ∀ sel : List (List α), (∃ c ∈ sel, c.length < k) →
      mapShots k sel = Except.error "insufficient data" := by
  intro sel
  induction sel with
  | nil => rintro ⟨c, hc, -⟩; cases hc
  | cons c cs ih =>
    rintro ⟨d, hd, hdk⟩
    rcases List.mem_cons.mp hd with rfl | hmem
    · have hnot : ¬ k ≤ d.length := Nat.not_le.mpr hdk
      simp [mapShots, drawShots, hnot]
    · by_cases hc : k ≤ c.length
      · have hrec := ih ⟨d, hmem, hdk⟩
        simp [mapShots, drawShots, hc, hrec]
      · simp [mapShots, drawShots, hc]

/-- Claim C6: whenever some selected class has fewer images than the number
of shots requested, both task-sampling entry points signal an
insufficient-data error instead of returning a truncated task. -/
theorem sampler_errors_on_insufficient_images {α : Type}
    (selected : List (List α)) (k trainK testK : ℕ) :
    ((∃ c ∈ selected, c.length < k) →
        getRandomTask k selected = Except.error "insufficient data") ∧
      ((∃ c ∈ selected, c.length < trainK + testK) →
        getRandomTaskSplit trainK testK selected =
          Except.error "insufficient data") := by
  constructor
  · intro h
    exact mapShots_insufficient k selected h
  · intro h
    unfold getRandomTaskSplit
    rw [mapShots_insufficient (trainK + testK) selected h]

/-- Claim C6 witness: a 2-shot request over selected classes with 2 and 1
images; the 1-image class forces the error in both entry points. -/
theorem sampler_errors_on_insufficient_images_witness :
    (∃ c ∈ ([[0, 1], [5]] : List (List ℕ)), c.length < 2) ∧
      getRandomTask 2 ([[0, 1], [5]] : List (List ℕ)) =
        Except.error "insufficient data" ∧
      getRandomTaskSplit 1 1 ([[0, 1], [5]] : List (List ℕ)) =
        Except.error "insufficient data" :=
  ⟨by decide,
    (sampler_errors_on_insufficient_images ([[0, 1], [5]] : List (List ℕ)) 2 1 1).1
      (by decide),
    (sampler_errors_on_insufficient_images ([[0, 1], [5]] : List (List ℕ)) 2 1 1).2
      (by decide)⟩

/-- Claim C7: for a non-empty wrapped dataset the make_infinite sequence is
unbounded: every draw yields a batch and end-of-sequence is never raised;
moreover draw p * L + i is batch i of the (reshuffled) pass p, so on
exhausting one pass the iterator restarts and continues. -/
theorem make_infinite_never_exhausts {B : Type} (dl : ShuffledLoader B)
    (h : dl.data ≠ []) :
    (∀ n, (makeInfinite dl n).isSome = true) ∧
      (∀ p i, i < dl.data.length →
        makeInfinite dl (p * dl.data.length + i) = (dl.pass p)[i]?) := by
  have hL : 0 < dl.data.length := List.length_pos.mpr h
  constructor
  · intro n
    have hlen : (dl.pass (n / dl.data.length)).length = dl.data.length :=
      (dl.perm _).length_eq
    have hmod : n % dl.data.length < dl.data.length := Nat.mod_lt _ hL
    unfold makeInfinite
    have hlt : n % dl.data.length < (dl.pass (n / dl.data.length)).length := by
      rw [hlen]
      exact hmod
    rw [List.getElem?_eq_getElem hlt]
    rfl
  · intro p i hi
    have hdiv : (p * dl.data.length + i) / dl.data.length = p := by
      rw [mul_comm, Nat.mul_add_div hL, Nat.div_eq_of_lt hi, Nat.add_zero]
    have hmod : (p * dl.data.length + i) % dl.data.length = i := by
      rw [mul_comm, Nat.mul_add_mod, Nat.mod_eq_of_lt hi]
    unfold makeInfinite
    rw [hdiv, hmod]

/-- A concrete two-batch loader whose every pass is the identity shuffle. -/
def constantLoader : ShuffledLoader ℕ :=
  ⟨[1, 2], fun _ => [1, 2], fun _ => List.Perm.refl _⟩

/-- Claim C7 witness: instantiation at the concrete two-batch loader. -/
theorem make_infinite_never_exhausts_witness :
    constantLoader.data ≠ [] ∧
      ((∀ n, (makeInfinite constantLoader n).isSome = true) ∧
        (∀ p i, i < constantLoader.data.length →
          makeInfinite constantLoader (p * constantLoader.data.length + i) =
            (constantLoader.pass p)[i]?)) :=
  ⟨by decide, make_infinite_never_exhausts constantLoader (by decide)⟩

/- ### The inner-loop learner do_learning (train_omniglot.py lines 96-114)

Each loop iteration draws the next batch from the infinite iterator, runs a
forward pass, computes the cross-entropy loss against the labels, zeroes the
gradients, back-propagates and applies one optimizer step; after the loop
the scalar loss value of the final iteration is returned. The tensor-level
operations are delegated to the external library and are abstracted as
opaque functions on abstract net and optimizer states. -/

/-- A mini-batch as unpacked on line 101: a data tensor and a label tensor. -/
structure Batch (In Lab : Type) where
  data : In
  labels : Lab

/-- The library operations do_learning delegates to: forward pass (line 104),
cross-entropy loss (lines 91-93 and 107), gradient zeroing (line 110),
back-propagation (line 111) and the optimizer step (line 112), which updates
the net parameters and the optimizer state. -/
structure TorchOps (Net Opt Pred In Lab : Type) where
  forward : Net → In → Pred
  crossEntropy : Pred → Lab → ℚ
  zeroGrad : Net → Net
  backward : Net → ℚ → Net
  optStep : Net → Opt → Net × Opt

/-- One iteration of the loop body of do_learning (lines 100-112), returning
the updated net and optimizer state together with the scalar loss of the
iteration (computed before the update, as in the source). -/
def learnStep {Net Opt Pred In Lab : Type} (ops : TorchOps Net Opt Pred In Lab)
    (s : Net × Opt) (b : Batch In Lab) : (Net × Opt) × ℚ :=
  let prediction := ops.forward s.1 b.data
  let loss := ops.crossEntropy prediction b.labels
  let net1 := ops.zeroGrad s.1
  let net2 := ops.backward net1 loss
  (ops.optStep net2 s.2, loss)

/-- The loop of do_learning as a tail recursion: remaining iterations, index
of the next batch to draw, current net and optimizer state, and the Python
variable `loss` (None before the first iteration, since line 114 reads a
variable that only the loop body assigns). -/
def doLearningGo {Net Opt Pred In Lab : Type}
    (ops : TorchOps Net Opt Pred In Lab) (stream : ℕ → Batch In Lab) :
    ℕ → ℕ → Net × Opt → Option ℚ → (Net × Opt) × Option ℚ
  | 0, _, s, acc => (s, acc)
  | n + 1, k, s, _ =>
    let r := learnStep ops s (stream k)
    doLearningGo ops stream n (k + 1) r.1 (some r.2)

/-- Embeds do_learning (lines 96-114): run the loop for `iterations` steps
starting from batch 0 and return the final state and the returned loss. -/
def doLearning {Net Opt Pred In Lab : Type}
    (ops : TorchOps Net Opt Pred In Lab) (stream : ℕ → Batch In Lab)
    (s : Net × Opt) (iterations : ℕ) : (Net × Opt) × Option ℚ :=
  doLearningGo ops stream iterations 0 s none

/-- The m-fold iterate of the loop body starting at batch index k: the
reference state sequence against which the loop is measured. -/
def learnIterFrom {Net Opt Pred In Lab : Type}
    (ops : TorchOps Net Opt Pred In Lab) (stream : ℕ → Batch In Lab)
    (k : ℕ) (s : Net × Opt) : ℕ → Net × Opt
  | 0 => s
  | m + 1 => (learnStep ops (learnIterFrom ops stream k s m) (stream (k + m))).1

/- ### Optimizer-state isolation of the evaluation branch (lines 199-212)

The carried base-optimizer state `state` is a Python dict of tensors, so
mutation and aliasing matter: get_optimizer (lines 142-146) builds a fresh
Adam optimizer and, when handed a state, loads it via
Optimizer.load_state_dict, which deep-copies its argument (documented
library semantics), so the new optimizer owns a fresh cell and never aliases
the canonical dict. A small heap of state cells makes this explicit. -/

/-- A heap of optimizer-state cells: the next fresh address and the cell
contents. -/
structure StateHeap (S : Type) where
  next : ℕ
  mem : ℕ → Option S

/-- Allocate a fresh cell holding v; returns the heap and the new address. -/
def StateHeap.alloc {S : Type} (h : StateHeap S) (v : S) : StateHeap S × ℕ :=
  (⟨h.next + 1, fun b => if b = h.next then some v else h.mem b⟩, h.next)

/-- Overwrite the cell at address a with v. -/
def StateHeap.write {S : Type} (h : StateHeap S) (a : ℕ) (v : S) : StateHeap S :=
  ⟨h.next, fun b => if b = a then some v else h.mem b⟩

/-- Embeds get_optimizer (lines 142-146): construct a fresh Adam optimizer
(its own new state cell, initial Adam state `init`); when a state dict is
given, the cell instead receives a deep copy of the value of that dict
(Optimizer.load_state_dict deep-copies; it never aliases its argument). -/
def getOptimizerCell {S : Type} (init : S) (h : StateHeap S) :
    Option ℕ → StateHeap S × ℕ
  | none => h.alloc init
  | some a => h.alloc ((h.mem a).getD init)

/-- Embeds the training adaptation of one meta-iteration (lines 182-192):
build the warm-started optimizer, run do_learning, which mutates the
optimizer cell by the abstract adaptation `adapt`, then capture
`state = optimizer.state_dict()` (line 192) — the state dict shares its
tensors with the live optimizer cell, so the canonical carried state is that
cell. Returns the heap and the new canonical state address. -/
def trainAdapt {S : Type} (init : S) (adapt : S → S) (h : StateHeap S)
    (sa : Option ℕ) : StateHeap S × ℕ :=
  let ha := getOptimizerCell init h sa
  (ha.1.write ha.2 (adapt ((ha.1.mem ha.2).getD init)), ha.2)

/-- Embeds one mode of the evaluation branch (lines 207-209): build a fresh
warm-started optimizer from the carried state and run the evaluation
adaptation on it; the canonical state address is not reassigned (line 208,
comment: do not save state of optimizer). -/
def evalModeBranch {S : Type} (init : S) (adapt : S → S) (h : StateHeap S)
    (sa : Option ℕ) : StateHeap S :=
  let ha := getOptimizerCell init h sa
  ha.1.write ha.2 (adapt ((ha.1.mem ha.2).getD init))

/-- Embeds the whole evaluation branch (lines 199-212): the for loop of line
200 runs the mode branch once for the meta-train pool and once for the
meta-test pool, both reading the same carried state address. -/
def evalBranch {S : Type} (init : S) (adaptTrain adaptVal : S → S)
    (h : StateHeap S) (sa : Option ℕ) : StateHeap S :=
  evalModeBranch init adaptVal (evalModeBranch init adaptTrain h sa) sa

/-- The evaluation branch runs only when the iteration index hits the
validate-every cadence (line 199); `run` carries that test. -/
def maybeEval {S : Type} (run : Bool) (init : S) (adaptTrain adaptVal : S → S)
    (h : StateHeap S) (sa : Option ℕ) : StateHeap S :=
  if run then evalBranch init adaptTrain adaptVal h sa else h

/- ### Checkpointing (train_omniglot.py lines 163-171 and 233-243) -/

/-- A Python object bound at the meta_net key of a checkpoint: either a
whole nn.Module object, which carries its parameters, or a bare parameters
state dict. -/
inductive NetObj (P : Type) where
  | module (params : P)
  | stateDict (params : P)

/-- The checkpoint bundle written on lines 235-241, field for field. -/
structure Checkpoint (P MO S I : Type) where
  meta_net : NetObj P
  meta_optimizer : MO
  optimizer : Option S
  meta_iteration : ℕ
  info : I

/-- Embeds the save of lines 233-243: the meta_net key receives the whole
module object (line 236), not its parameters state dict; the other four
keys receive the meta-optimizer state dict, the carried base-optimizer
state, the iteration index and the metrics ledger. torch.save and
torch.load round-trip the bundle faithfully (library semantics), so this
value also stands for the reloaded bundle. -/
def saveCheckpoint {P MO S I : Type} (netParams : P) (metaOpt : MO)
    (st : Option S) (it : ℕ) (ledger : I) : Checkpoint P MO S I :=
  ⟨NetObj.module netParams, metaOpt, st, it, ledger⟩

/-- Module.load_state_dict of the torch library (documented semantics): the
argument must be a parameters state dict; handed any other object, such as a
whole module, it fails instead of restoring parameters. -/
def moduleLoadStateDict {P : Type} (_current : P) :
    NetObj P → Except String P
  | NetObj.stateDict q => Except.ok q
  | NetObj.module _ => Except.error "TypeError: expected a state dict, got a module"

/-- Embeds the resume of lines 163-171: restore the Meta-Model parameters
via load_state_dict on the meta_net field first (line 167); only if that
succeeds are the meta-optimizer state, carried base-optimizer state, start
iteration and metrics ledger restored (lines 168-171). -/
def resumeFromCheckpoint {P MO S I : Type} (current : P)
    (c : Checkpoint P MO S I) : Except String (P × MO × Option S × ℕ × I) :=
  match moduleLoadStateDict current c.meta_net with
  | Except.error e => Except.error e
  | Except.ok p =>
      Except.ok (p, c.meta_optimizer, c.optimizer, c.meta_iteration, c.info)

/-- Starting one batch later from the once-stepped state traverses the same
state sequence, shifted by one. -/
theorem learnIterFrom_shift {Net Opt Pred In Lab : Type}
    (ops : TorchOps Net Opt Pred In Lab) (stream : ℕ → Batch In Lab)
    (k : ℕ) (s : Net × Opt) :
    ∀ m, learnIterFrom ops stream (k + 1) (learnStep ops s (stream k)).1 m =
      learnIterFrom ops stream k s (m + 1) := by
  intro m
  induction m with
  | zero => simp [learnIterFrom]
  | succ m ih =>
    show (learnStep ops (learnIterFrom ops stream (k + 1)
        (learnStep ops s (stream k)).1 m) (stream (k + 1 + m))).1 =
      (learnStep ops (learnIterFrom ops stream k s (m + 1))
        (stream (k + (m + 1)))).1
    rw [ih]
    have harith : k + 1 + m = k + (m + 1) := by omega
    rw [harith]

/-- The loop of do_learning, run for n + 1 steps from batch index k, lands on
the (n + 1)-fold iterate of the body and its loss accumulator holds the loss
of the final step; the incoming accumulator value is discarded. -/
theorem doLearningGo_spec {Net Opt Pred In Lab : Type}
    (ops : TorchOps Net Opt Pred In Lab) (stream : ℕ → Batch In Lab) :
    ∀ n k (s : Net × Opt) (acc : Option ℚ),
      doLearningGo ops stream (n + 1) k s acc =
        (learnIterFrom ops stream k s (n + 1),
          some (learnStep ops (learnIterFrom ops stream k s n) (stream (k + n))).2) := by
  intro n
  induction n with
  | zero =>
    intro k s acc
    simp [doLearningGo, learnIterFrom]
  | succ n ih =>
    intro k s acc
    show doLearningGo ops stream (n + 1) (k + 1)
        (learnStep ops s (stream k)).1 (some (learnStep ops s (stream k)).2) =
      _
    rw [ih (k + 1) (learnStep ops s (stream k)).1
      (some (learnStep ops s (stream k)).2)]
    rw [learnIterFrom_shift ops stream k s (n + 1),
      learnIterFrom_shift ops stream k s n]
    have harith : k + 1 + n = k + (n + 1) := by omega
    rw [harith]

/-- Claim C8: for every steps >= 1, do_learning performs exactly `steps`
gradient updates — the final state is the steps-fold iterate of the loop
body, each step drawing the next batch in order — and returns the scalar
loss of the final step only, not an average over the steps. -/
theorem do_learning_runs_exactly_steps {Net Opt Pred In Lab : Type}
    (ops : TorchOps Net Opt Pred In Lab) (stream : ℕ → Batch In Lab)
    (s : Net × Opt) (iterations : ℕ) (h : 1 ≤ iterations) :
    doLearning ops stream s iterations =
      (learnIterFrom ops stream 0 s iterations,
        some (learnStep ops (learnIterFrom ops stream 0 s (iterations - 1))
          (stream (iterations - 1))).2) := by
  obtain ⟨n, rfl⟩ : ∃ n, iterations = n + 1 := ⟨iterations - 1, by omega⟩
  have hn : n + 1 - 1 = n := by omega
  rw [hn]
  unfold doLearning
  rw [doLearningGo_spec ops stream n 0 s none]
  rw [Nat.zero_add]

/-- A concrete set of library operations over rational scalars, for
evaluating the learner loop on a concrete input. -/
def concreteOps : TorchOps ℚ ℚ ℚ ℚ ℚ :=
  ⟨fun n x => n + x, fun p l => p - l, fun n => n, fun n l => n + l,
    fun n o => (n + 1, o + 1)⟩

/-- A concrete batch stream: batch k carries datum k with label 0. -/
def concreteStream : ℕ → Batch ℚ ℚ :=
  fun k => ⟨(k : ℚ), 0⟩

/-- Claim C8 witness: two steps of the loop over the concrete operations. -/
theorem do_learning_runs_exactly_steps_witness :
    1 ≤ 2 ∧
      doLearning concreteOps concreteStream ((0 : ℚ), (0 : ℚ)) 2 =
        (learnIterFrom concreteOps concreteStream 0 ((0 : ℚ), (0 : ℚ)) 2,
          some (learnStep concreteOps
            (learnIterFrom concreteOps concreteStream 0 ((0 : ℚ), (0 : ℚ)) (2 - 1))
            (concreteStream (2 - 1))).2) :=
  ⟨by norm_num,
    do_learning_runs_exactly_steps concreteOps concreteStream
      ((0 : ℚ), (0 : ℚ)) 2 (by norm_num)⟩

/-- One evaluation mode allocates a fresh cell, so it bumps the frontier. -/
theorem evalModeBranch_next {S : Type} (init : S) (g : S → S)
    (h : StateHeap S) (sa : Option ℕ) :
    (evalModeBranch init g h sa).next = h.next + 1 := by
  cases sa <;> rfl

/-- One evaluation mode writes only to its freshly allocated cell, so every
already-allocated cell keeps its value. -/
theorem evalModeBranch_mem {S : Type} (init : S) (g : S → S)
    (h : StateHeap S) (sa : Option ℕ) (a : ℕ) (ha : a < h.next) :
    (evalModeBranch init g h sa).mem a = h.mem a := by
  have hne : a ≠ h.next := Nat.ne_of_lt ha
  cases sa <;>
    simp [evalModeBranch, getOptimizerCell, StateHeap.alloc, StateHeap.write, hne]

/-- The canonical state cell produced by a training adaptation lies below the
heap frontier it returns. -/
theorem trainAdapt_addr_lt {S : Type} (init : S) (f : S → S)
    (h : StateHeap S) (sa : Option ℕ) :
    (trainAdapt init f h sa).2 < (trainAdapt init f h sa).1.next := by
  cases sa <;>
    simp [trainAdapt, getOptimizerCell, StateHeap.alloc, StateHeap.write]

/-- Claim C5: whether or not the evaluation branch runs, the canonical
carried base-optimizer state consumed by the next training meta-iteration is
exactly the state captured at the end of the most recent training
adaptation — the evaluation adaptations work on fresh deep-copied cells and
never mutate the canonical cell. -/
theorem eval_branch_preserves_carried_state {S : Type} (init : S)
    (adaptT gTrain gVal : S → S) (h : StateHeap S) (sa : Option ℕ)
    (run : Bool) :
    (maybeEval run init gTrain gVal (trainAdapt init adaptT h sa).1
        (some (trainAdapt init adaptT h sa).2)).mem
        (trainAdapt init adaptT h sa).2 =
      (trainAdapt init adaptT h sa).1.mem (trainAdapt init adaptT h sa).2 := by
  cases run with
  | false => rfl
  | true =>
    have hlt : (trainAdapt init adaptT h sa).2 <
        (trainAdapt init adaptT h sa).1.next :=
      trainAdapt_addr_lt init adaptT h sa
    have hlt2 : (trainAdapt init adaptT h sa).2 <
        (evalModeBranch init gTrain (trainAdapt init adaptT h sa).1
          (some (trainAdapt init adaptT h sa).2)).next := by
      rw [evalModeBranch_next]
      omega
    show (evalBranch init gTrain gVal (trainAdapt init adaptT h sa).1
        (some (trainAdapt init adaptT h sa).2)).mem
        (trainAdapt init adaptT h sa).2 = _
    unfold evalBranch
    rw [evalModeBranch_mem _ _ _ _ _ hlt2]
    rw [evalModeBranch_mem _ _ _ _ _ hlt]

/-- Claim C3: the checkpoint round-trip is broken. The save of line 236
stores the whole module object under the meta_net key, but the resume of
line 167 hands that object to Module.load_state_dict, which requires a
parameters state dict; so resuming from any saved checkpoint fails instead
of restoring the five persisted fields and continuing the loop. -/
theorem resume_rejects_saved_module {P MO S I : Type} (current netP : P)
    (mo : MO) (st : Option S) (it : ℕ) (ledger : I) :
    resumeFromCheckpoint current (saveCheckpoint netP mo st it ledger) =
      Except.error "TypeError: expected a state dict, got a module" := rfl
